import Mathlib

/-!
# Verification of the PS3000a low-level driver module (`picoscope/ps3000a.py`)

This file shallowly embeds the logic-bearing parts of the module:

* the two pure timebase conversions `getTimeBaseNum` (requested sampling
  interval → timebase code) and `getTimestepFromTimebase` (timebase code →
  sampling interval);
* the multi-segment buffer registration helper
  `_lowLevelSetMultipleDataBuffers` together with its shape validation;
* the unit-info retrieval `_lowLevelGetUnitInfo` with its grow-and-retry path.

Modelling conventions:

* Python `float` arithmetic is modelled as exact rational arithmetic over `ℚ`
  (the spec's properties are stated under exact arithmetic);
* Python exceptions are modelled by an explicit error type `PyError` and
  fallible functions return `Except PyError _`;
* `math.floor` is `Int.floor`, and `math.floor(math.log(x, 2))` on a positive
  rational `x` is `Int.log 2 x` (Mathlib's integer logarithm, which equals
  `⌊Real.logb 2 x⌋`); `math.log` raises `ValueError: math domain error` on a
  non-positive argument;
* driver calls are modelled by environments recording the status codes and
  output values the native library would produce, and the helpers additionally
  return the trace of driver calls they issue, so that claims about which
  calls happen (and in which order) can be stated;
* `checkResult` (inherited from `_PicoscopeBase`, outside this module) is
  modelled from the spec: a non-zero status surfaces immediately as a
  `driverError` carrying the raw status.
-/

namespace PS3000a

/-- Errors the modelled code can raise: Python `ValueError` (with its message),
Python `NameError` (for an undefined global name), and the spec's
`DriverError` carrying a non-zero driver status. -/
inductive PyError where
  | valueError (msg : String)
  | nameError (name : String)
  | driverError (status : Int)
deriving DecidableEq

/-- The local `maxSampleTime` of `getTimeBaseNum` (src line 270):
`(((2 ** 32 - 1) - 2) / 125000000)` seconds, evaluated exactly. -/
def maxSampleTime : ℚ := ((2 ^ 32 - 1) - 2) / 125000000

/-- Embeds `PS3000a.getTimeBaseNum(sampleTimeS)` (src lines 266-281).

```
if sampleTimeS < 8.0E-9:
    st = math.floor(math.log(sampleTimeS * 1E9, 2))
    st = max(st, 0)
else:
    if sampleTimeS > maxSampleTime:
        sampleTimeS = maxSampleTime
    st = math.floor((sampleTimeS * 125000000) + 2)
return int(st)
```

`math.log(x, 2)` raises `ValueError("math domain error")` when `x ≤ 0`;
on `x > 0` its floor is the integer logarithm `Int.log 2 x`. -/
def getTimeBaseNum (sampleTimeS : ℚ) : Except PyError ℤ :=
  if sampleTimeS < 8 / 10 ^ 9 then
    if sampleTimeS * 10 ^ 9 ≤ 0 then
      .error (.valueError "math domain error")
    else
      .ok (max (Int.log 2 (sampleTimeS * 10 ^ 9)) 0)
  else
    let s := if maxSampleTime < sampleTimeS then maxSampleTime else sampleTimeS
    .ok ⌊s * 125000000 + 2⌋

/-- Embeds `PS3000a.getTimestepFromTimebase(timebase)` (src lines 283-292).

```
if timebase < 3:
    dt = 2. ** timebase / 1.0E9
else:
    dt = (timebase - 2.0) / 125000000.
return dt
```

`2. ** timebase` is defined for every integer (negative exponents give
fractions), hence the `ℤ`-exponent power. -/
def getTimestepFromTimebase (timebase : ℤ) : ℚ :=
  if timebase < 3 then (2 : ℚ) ^ timebase / 10 ^ 9
  else ((timebase : ℚ) - 2) / 125000000

/-! ## Multi-segment buffer registration (`_lowLevelSetMultipleDataBuffers`) -/

/-- The names defined at module level in `ps3000a.py` (its `globals()`): the
four `__future__` feature names, the two module imports, the `ctypes` imports,
the base-class import and the class itself.  Used to model Python's global name
lookup in method bodies. -/
def moduleGlobals : List String :=
  ["division", "absolute_import", "print_function", "unicode_literals",
   "math", "platform",
   "byref", "POINTER", "create_string_buffer", "c_float",
   "c_int16", "c_int32", "c_uint16", "c_uint32", "c_void_p", "c_enum",
   "_PicoscopeBase", "PS3000a"]

/-- The driver-side data `_lowLevelSetMultipleDataBuffers` interacts with:
the status and value returned by `ps3000aGetMaxSegments`, and the status
`ps3000aSetDataBuffer` would return per segment index. -/
structure MultiBufferEnv where
  getMaxSegmentsStatus : Int
  maxSegments : Nat
  setDataBufferStatus : Nat → Int

/-- Embeds the body of `for i in range(max_segments)` (src lines 345-348):

```
m = ps._lowLevelSetDataBuffer(channel, data[i, :], downSampleMode, i)
self.checkResult(m)
```

The body first evaluates the global name `ps`.  The module defines no global
`ps` (see `moduleGlobals`), so Python raises `NameError` before any driver
call is made.  The other branch is unreachable; it records what the line would
do were `ps` bound to the instrument: register row `i` for segment `i` via
`_lowLevelSetDataBuffer` and check the status. -/
def multiBufferLoopBody (env : MultiBufferEnv) (i : Nat) :
    List Nat × Except PyError Unit :=
  if moduleGlobals.contains "ps" then
    if env.setDataBufferStatus i ≠ 0 then
      ([i], .error (.driverError (env.setDataBufferStatus i)))
    else ([i], .ok ())
  else
    ([], .error (.nameError "ps"))

/-- Runs `multiBufferLoopBody` for `i, i+1, ..., i+fuel-1` in increasing order,
accumulating the trace of registration calls and stopping at the first
raised exception (mirrors `for i in range(max_segments)` with an exception
aborting the loop). -/
def multiBufferLoop (env : MultiBufferEnv) : Nat → Nat → List Nat × Except PyError Unit
  | _, 0 => ([], .ok ())
  | i, fuel + 1 =>
    match multiBufferLoopBody env i with
    | (calls, .ok ()) =>
      let rest := multiBufferLoop env (i + 1) fuel
      (calls ++ rest.1, rest.2)
    | (calls, .error e) => (calls, .error e)

/-- Embeds `PS3000a._lowLevelSetMultipleDataBuffers(channel, data, downSampleMode)`
(src lines 338-348) for a buffer with `R` rows and `C` columns, given the
previously recorded `self.maxSamples`.

```
max_segments = self._lowLevelGetMaxSegments()
if data.shape[0] < max_segments:
    raise ValueError("data array has fewer rows than current number of memory segments")
if data.shape[1] < self.maxSamples:
    raise ValueError("data array has fewer columns than maxSamples")
for i in range(max_segments):
    m = ps._lowLevelSetDataBuffer(channel, data[i, :], downSampleMode, i)
    self.checkResult(m)
```

Returns the trace of per-segment registration calls issued and the outcome.
`_lowLevelGetMaxSegments` itself checks its driver status (`checkResult`,
modelled from the spec: non-zero status surfaces as `driverError`). -/
def lowLevelSetMultipleDataBuffers (env : MultiBufferEnv) (R C maxSamples : Nat) :
    List Nat × Except PyError Unit :=
  if env.getMaxSegmentsStatus ≠ 0 then
    ([], .error (.driverError env.getMaxSegmentsStatus))
  else if R < env.maxSegments then
    ([], .error (.valueError
      "data array has fewer rows than current number of memory segments"))
  else if C < maxSamples then
    ([], .error (.valueError "data array has fewer columns than maxSamples"))
  else
    multiBufferLoop env 0 env.maxSegments

/-! ## Unit info retrieval (`_lowLevelGetUnitInfo`) -/

/-- The two native entry points that appear in `_lowLevelGetUnitInfo`:
`ps3000aGetUnitInfo` (the PS3000A-series symbol, used for the initial call,
src line 177) and `ps3000_get_unit_info` (a PS3000-series symbol, used for the
retry, src line 183). -/
inductive UnitInfoEntry where
  | ps3000aGetUnitInfo
  | ps3000_get_unit_info
deriving DecidableEq

/-- Driver-side behaviour of a unit-info request, as a function of the buffer
length passed in: the returned status, the string written into the buffer, and
the reported required size. -/
structure UnitInfoEnv where
  status : Nat → Int
  value : Nat → String
  requiredSize : Nat → Nat

/-- Embeds `PS3000a._lowLevelGetUnitInfo(info)` (src lines 173-190):

```
s = create_string_buffer(256)
m = self.lib.ps3000aGetUnitInfo(handle, s, len(s), requiredSize, info)
self.checkResult(m)
if requiredSize.value > len(s):
    s = create_string_buffer(requiredSize.value + 1)
    m = self.lib.ps3000_get_unit_info(handle, s, len(s), requiredSize, info)
    self.checkResult(m)
return s.value.decode('utf-8')
```

Returns the trace of driver calls (entry point and buffer length) and the
outcome. -/
def lowLevelGetUnitInfo (env : UnitInfoEnv) :
    List (UnitInfoEntry × Nat) × Except PyError String :=
  let m := env.status 256
  if m ≠ 0 then
    ([(.ps3000aGetUnitInfo, 256)], .error (.driverError m))
  else if env.requiredSize 256 > 256 then
    let n := env.requiredSize 256 + 1
    let m2 := env.status n
    if m2 ≠ 0 then
      ([(.ps3000aGetUnitInfo, 256), (.ps3000_get_unit_info, n)],
        .error (.driverError m2))
    else
      ([(.ps3000aGetUnitInfo, 256), (.ps3000_get_unit_info, n)],
        .ok (env.value n))
  else
    ([(.ps3000aGetUnitInfo, 256)], .ok (env.value 256))

/-! ## Helper lemmas -/

/-- The clamp `if maxSampleTime < s then maxSampleTime else s` is `min s maxSampleTime`. -/
lemma clamp_eq_min (s : ℚ) :
    (if maxSampleTime < s then maxSampleTime else s) = min s maxSampleTime := by
  by_cases hc : maxSampleTime < s
  · rw [if_pos hc, min_eq_right hc.le]
  · rw [if_neg hc, min_eq_left (not_lt.1 hc)]

/-- In the fast-clock branch, a successful result forces a positive `math.log`
argument and pins down the returned code. -/
lemma fast_ok {s : ℚ} {c : ℤ} (hf : s < 8 / 10 ^ 9) (h : getTimeBaseNum s = .ok c) :
    0 < s * 10 ^ 9 ∧ c = max (Int.log 2 (s * 10 ^ 9)) 0 := by
  rw [getTimeBaseNum, if_pos hf] at h
  by_cases hg : s * 10 ^ 9 ≤ 0
  · rw [if_pos hg] at h; cases h
  · rw [if_neg hg] at h
    injection h with h'
    exact ⟨not_le.1 hg, h'.symm⟩

/-- In the slow-clock branch, `getTimeBaseNum` is the floor formula applied to
the clamped interval. -/
lemma slow_eq (s : ℚ) (hf : ¬ s < 8 / 10 ^ 9) :
    getTimeBaseNum s = .ok ⌊min s maxSampleTime * 125000000 + 2⌋ := by
  rw [getTimeBaseNum, if_neg hf]
  show Except.ok ⌊(if maxSampleTime < s then maxSampleTime else s) * 125000000 + 2⌋ = _
  rw [clamp_eq_min]

lemma natLog2_two : Nat.log 2 2 = 1 := by
  simpa using Nat.log_pow (b := 2) (by norm_num) 1

lemma natLog2_four : Nat.log 2 4 = 2 := by
  have h4 : (4 : ℕ) = 2 ^ 2 := by norm_num
  rw [h4]; exact Nat.log_pow (by norm_num) 2

lemma intLog2_two : Int.log 2 (2 : ℚ) = 1 := by
  have h : ((2 : ℕ) : ℚ) = (2 : ℚ) := by norm_num
  rw [← h, Int.log_natCast, natLog2_two]; norm_num

lemma intLog2_four : Int.log 2 (4 : ℚ) = 2 := by
  have h : ((4 : ℕ) : ℚ) = (4 : ℚ) := by norm_num
  rw [← h, Int.log_natCast, natLog2_four]; norm_num

/-- Mathlib's integer logarithm is invariant under the cast `ℚ → ℝ`. -/
lemma intLog_ratCast (b : ℕ) (q : ℚ) : Int.log b ((q : ℝ)) = Int.log b q := by
  rcases le_or_lt 1 q with h | h
  · rw [Int.log_of_one_le_right _ h, Int.log_of_one_le_right _ (by exact_mod_cast h)]
    rw [show ⌊(q : ℝ)⌋₊ = ⌊q⌋₊ by
      simpa using Nat.map_floor (Rat.castHom ℝ) Rat.cast_strictMono q]
  · rw [Int.log_of_right_le_one _ h.le, Int.log_of_right_le_one _ (by exact_mod_cast h.le)]
    rw [← Rat.cast_inv]
    rw [show ⌈((q⁻¹ : ℚ) : ℝ)⌉₊ = ⌈q⁻¹⌉₊ by
      simpa using Nat.map_ceil (Rat.castHom ℝ) Rat.cast_strictMono q⁻¹]

/-- `⌊log₂ q⌋` (over the reals) is Mathlib's `Int.log 2 q` for a nonnegative
rational `q` — the link between `math.floor(math.log(x, 2))` (under exact
arithmetic) and the integer logarithm used in the embedding. -/
lemma floor_logb_two_ratCast (q : ℚ) (hq : 0 ≤ q) :
    ⌊Real.logb 2 (q : ℝ)⌋ = Int.log 2 q := by
  have h2 : ((2 : ℕ) : ℝ) = (2 : ℝ) := by norm_num
  rw [← h2, Real.floor_logb_natCast (by exact_mod_cast hq), intLog_ratCast]

/-- `getTimeBaseNum 1e-9 = 0`. -/
lemma getTimeBaseNum_one_ns : getTimeBaseNum (1 / 10 ^ 9) = .ok 0 := by
  rw [getTimeBaseNum, if_pos (by norm_num), if_neg (by norm_num)]
  have h : (1 : ℚ) / 10 ^ 9 * 10 ^ 9 = 1 := by norm_num
  rw [h, Int.log_one_right]
  norm_num

/-- `getTimeBaseNum 4e-9 = 2`. -/
lemma getTimeBaseNum_four_ns : getTimeBaseNum (4 / 10 ^ 9) = .ok 2 := by
  rw [getTimeBaseNum, if_pos (by norm_num), if_neg (by norm_num)]
  have h : (4 : ℚ) / 10 ^ 9 * 10 ^ 9 = 4 := by norm_num
  rw [h, intLog2_four]
  norm_num

/-- `getTimeBaseNum 8e-9 = 3` (slow-clock branch). -/
lemma getTimeBaseNum_eight_ns : getTimeBaseNum (8 / 10 ^ 9) = .ok 3 := by
  rw [slow_eq _ (by norm_num), min_eq_left (by rw [maxSampleTime]; norm_num)]
  have h : (8 : ℚ) / 10 ^ 9 * 125000000 + 2 = ((3 : ℤ) : ℚ) := by norm_num
  rw [h, Int.floor_intCast]

/-- `getTimeBaseNum 1e-6 = 127`. -/
lemma getTimeBaseNum_one_us : getTimeBaseNum (1 / 10 ^ 6) = .ok 127 := by
  rw [slow_eq _ (by norm_num), min_eq_left (by rw [maxSampleTime]; norm_num)]
  have h : (1 : ℚ) / 10 ^ 6 * 125000000 + 2 = ((127 : ℤ) : ℚ) := by norm_num
  rw [h, Int.floor_intCast]

/-- `getTimeBaseNum 1.0 = 125000002`. -/
lemma getTimeBaseNum_one_s : getTimeBaseNum 1 = .ok 125000002 := by
  rw [slow_eq _ (by norm_num), min_eq_left (by rw [maxSampleTime]; norm_num)]
  have h : (1 : ℚ) * 125000000 + 2 = ((125000002 : ℤ) : ℚ) := by norm_num
  rw [h, Int.floor_intCast]

/-- At `sampleTimeS = 0` the fast-clock branch is taken and `math.log(0, 2)`
raises `ValueError: math domain error`. -/
lemma getTimeBaseNum_zero :
    getTimeBaseNum 0 = .error (.valueError "math domain error") := by
  rw [getTimeBaseNum, if_pos (by norm_num), if_pos (by norm_num)]

lemma getTimestepFromTimebase_zero : getTimestepFromTimebase 0 = 1 / 10 ^ 9 := by
  rw [getTimestepFromTimebase, if_pos (by norm_num)]
  norm_num

lemma getTimestepFromTimebase_two : getTimestepFromTimebase 2 = 4 / 10 ^ 9 := by
  rw [getTimestepFromTimebase, if_pos (by norm_num)]
  norm_num

lemma getTimestepFromTimebase_three : getTimestepFromTimebase 3 = 8 / 10 ^ 9 := by
  rw [getTimestepFromTimebase, if_neg (by norm_num)]
  norm_num

lemma getTimestepFromTimebase_127 : getTimestepFromTimebase 127 = 1 / 10 ^ 6 := by
  rw [getTimestepFromTimebase, if_neg (by norm_num)]
  norm_num

lemma getTimestepFromTimebase_125000002 : getTimestepFromTimebase 125000002 = 1 := by
  rw [getTimestepFromTimebase, if_neg (by norm_num)]
  norm_num

/-- The module defines no global named `ps`, so the loop body of
`_lowLevelSetMultipleDataBuffers` raises `NameError` before issuing any
driver call. -/
lemma multiBufferLoopBody_eq (env : MultiBufferEnv) (i : Nat) :
    multiBufferLoopBody env i = ([], .error (.nameError "ps")) := by
  rw [multiBufferLoopBody, if_neg]
  simp [moduleGlobals]

lemma multiBufferLoop_pos (env : MultiBufferEnv) (i fuel : Nat) :
    multiBufferLoop env i (fuel + 1) = ([], .error (.nameError "ps")) := by
  rw [multiBufferLoop, multiBufferLoopBody_eq]

/-- The registration loop never raises a `ValueError`: once the shape checks
have passed, the only failures are `NameError` (or, were the name bound,
driver errors). -/
lemma multiBufferLoop_no_valueError (env : MultiBufferEnv) (i n : Nat) (msg : String) :
    (multiBufferLoop env i n).2 ≠ .error (.valueError msg) := by
  cases n with
  | zero => rw [multiBufferLoop]; simp
  | succ fuel => rw [multiBufferLoop_pos]; simp

/-! ## Claims -/

/-- C1: for every non-negative integer `code`, `getTimestepFromTimebase` returns
`2 ^ code / 1e9` seconds when `code < 3` (codes 0, 1, 2 map to 1 ns, 2 ns,
4 ns) and `(code - 2) / 125_000_000` seconds when `code ≥ 3`. -/
theorem getTimestepFromTimebase_two_regimes (code : ℕ) :
    (code < 3 → getTimestepFromTimebase code = 2 ^ code / 10 ^ 9) ∧
    (3 ≤ code → getTimestepFromTimebase code = ((code : ℚ) - 2) / 125000000) := by
  constructor
  · intro h
    rw [getTimestepFromTimebase, if_pos (by exact_mod_cast h), zpow_natCast]
  · intro h
    rw [getTimestepFromTimebase, if_neg (by exact_mod_cast not_lt.2 h)]
    push_cast
    ring

/-- Witness for C1: code 2 gives `2^2 / 1e9 = 4` ns, code 3 gives
`(3 - 2) / 125e6 = 8` ns. -/
theorem getTimestepFromTimebase_two_regimes_witness :
    getTimestepFromTimebase (2 : ℕ) = 2 ^ (2 : ℕ) / 10 ^ 9 ∧
    getTimestepFromTimebase (3 : ℕ) = (((3 : ℕ) : ℚ) - 2) / 125000000 :=
  ⟨(getTimestepFromTimebase_two_regimes 2).1 (by norm_num),
   (getTimestepFromTimebase_two_regimes 3).2 (by norm_num)⟩

/-- C2: for every `sampleTimeS ≥ 8e-9`, `getTimeBaseNum` clamps the interval to
`maxSampleTime = (2^32 - 3) / 125_000_000` seconds and returns
`⌊clamped * 125_000_000 + 2⌋`, raising no error; in particular any input
exceeding `maxSampleTime` yields the code for `maxSampleTime`, namely
`2^32 - 1`, not an overflowed integer. -/
theorem getTimeBaseNum_slow_clamps (s : ℚ) (h : 8 / 10 ^ 9 ≤ s) :
    getTimeBaseNum s = .ok ⌊min s maxSampleTime * 125000000 + 2⌋ ∧
    (maxSampleTime < s → getTimeBaseNum s = .ok (2 ^ 32 - 1)) := by
  refine ⟨slow_eq s (not_lt.2 h), fun hc => ?_⟩
  rw [slow_eq s (not_lt.2 h), min_eq_right hc.le]
  have h1 : maxSampleTime * 125000000 + 2 = ((4294967295 : ℤ) : ℚ) := by
    rw [maxSampleTime]; norm_num
  rw [h1, Int.floor_intCast]
  norm_num

/-- Witness for C2: the interval `2^40` seconds (far beyond `maxSampleTime`,
which is below 35 seconds) still yields the clamped code `2^32 - 1`. -/
theorem getTimeBaseNum_slow_clamps_witness :
    getTimeBaseNum (2 ^ 40) = .ok (2 ^ 32 - 1) :=
  (getTimeBaseNum_slow_clamps (2 ^ 40) (by norm_num)).2 (by rw [maxSampleTime]; norm_num)

/-- Counterexample to C3: at `sampleTimeS = 0` (which satisfies `0 < 8e-9`)
`getTimeBaseNum` returns no integer at all — `math.log(0, 2)` raises
`ValueError` — contradicting the claim that every `sampleTimeS < 8e-9` yields
the integer `max(⌊log₂(sampleTimeS * 1e9)⌋, 0)`. -/
theorem getTimeBaseNum_fast_zero_counterexample :
    ¬ ∃ c : ℤ, getTimeBaseNum 0 = .ok c := by
  rw [getTimeBaseNum_zero]
  rintro ⟨c, hc⟩
  cases hc

/-- C3 (amended): for every `sampleTimeS` with `0 < sampleTimeS < 8e-9`,
`getTimeBaseNum` returns `max(⌊log₂(sampleTimeS * 1e9)⌋, 0)` — the floor of
the base-2 logarithm of the interval in nanoseconds, clamped below at 0.
(At `sampleTimeS ≤ 0`, `math.log` raises a `ValueError` instead.) -/
theorem getTimeBaseNum_fast_floor_log2 (s : ℚ) (h0 : 0 < s) (h : s < 8 / 10 ^ 9) :
    getTimeBaseNum s = .ok (max ⌊Real.logb 2 ((s : ℝ) * 10 ^ 9)⌋ 0) := by
  have harg : (0 : ℚ) < s * 10 ^ 9 := by positivity
  rw [getTimeBaseNum, if_pos h, if_neg (not_le.2 harg)]
  have hcast : ((s : ℝ) * 10 ^ 9) = ((s * 10 ^ 9 : ℚ) : ℝ) := by push_cast; ring
  rw [hcast, floor_logb_two_ratCast _ harg.le]

/-- Witness for C3 (amended): at 2 ns the fast-clock branch applies. -/
theorem getTimeBaseNum_fast_floor_log2_witness :
    getTimeBaseNum (2 / 10 ^ 9) =
      .ok (max ⌊Real.logb 2 ((((2 : ℚ) / 10 ^ 9 : ℚ) : ℝ) * 10 ^ 9)⌋ 0) :=
  getTimeBaseNum_fast_floor_log2 (2 / 10 ^ 9) (by norm_num) (by norm_num)

/-- C4 (code bug evidence): with the shape preconditions satisfied (2 memory
segments, a 2×4 buffer, recorded maxSamples 4, every driver status 0),
`_lowLevelSetMultipleDataBuffers` issues no registration call at all: the loop
body's `ps._lowLevelSetDataBuffer` (src line 346) reads the undefined global
name `ps` and raises `NameError` on the first iteration. -/
theorem setMultipleDataBuffers_ps_nameError :
    lowLevelSetMultipleDataBuffers ⟨0, 2, fun _ => 0⟩ 2 4 4 =
      ([], .error (.nameError "ps")) := by
  rw [lowLevelSetMultipleDataBuffers, if_neg (by norm_num), if_neg (by norm_num),
    if_neg (by norm_num)]
  exact multiBufferLoop_pos _ 0 1

/-- C5: when the max-segments driver query succeeds, the helper raises its
locally-raised shape error (the spec's `ConfigurationError`, a Python
`ValueError` in the code) exactly when the buffer has fewer rows than
`maxSegments` or fewer columns than the recorded `maxSamples`, and in that
case no registration call has been issued. -/
theorem setMultipleDataBuffers_configError_iff (env : MultiBufferEnv)
    (R C ms : Nat) (hok : env.getMaxSegmentsStatus = 0) :
    ((∃ msg, (lowLevelSetMultipleDataBuffers env R C ms).2 =
        .error (.valueError msg)) ↔ R < env.maxSegments ∨ C < ms) ∧
    ((R < env.maxSegments ∨ C < ms) →
      (lowLevelSetMultipleDataBuffers env R C ms).1 = []) := by
  rw [lowLevelSetMultipleDataBuffers, if_neg (by simp [hok])]
  by_cases h1 : R < env.maxSegments
  · rw [if_pos h1]
    exact ⟨⟨fun _ => Or.inl h1, fun _ => ⟨_, rfl⟩⟩, fun _ => rfl⟩
  · rw [if_neg h1]
    by_cases h2 : C < ms
    · rw [if_pos h2]
      exact ⟨⟨fun _ => Or.inr h2, fun _ => ⟨_, rfl⟩⟩, fun _ => rfl⟩
    · rw [if_neg h2]
      constructor
      · constructor
        · rintro ⟨msg, hmsg⟩
          exact absurd hmsg (multiBufferLoop_no_valueError env 0 env.maxSegments msg)
        · rintro (h | h) <;> [exact absurd h h1; exact absurd h h2]
      · rintro (h | h) <;> [exact absurd h h1; exact absurd h h2]

/-- Witness for C5: 3 driver-reported segments but only 2 buffer rows trigger
the shape `ValueError` with no registration call issued. -/
theorem setMultipleDataBuffers_configError_iff_witness :
    (∃ msg, (lowLevelSetMultipleDataBuffers ⟨0, 3, fun _ => 0⟩ 2 5 1).2 =
      .error (.valueError msg)) ∧
    (lowLevelSetMultipleDataBuffers ⟨0, 3, fun _ => 0⟩ 2 5 1).1 = [] :=
  ⟨(setMultipleDataBuffers_configError_iff ⟨0, 3, fun _ => 0⟩ 2 5 1 rfl).1.mpr
      (Or.inl (by norm_num)),
   (setMultipleDataBuffers_configError_iff ⟨0, 3, fun _ => 0⟩ 2 5 1 rfl).2
      (Or.inl (by norm_num))⟩

/-- Counterexample to C6: the claim includes `sampleTimeSeconds = 0`, but at 0
`getTimeBaseNum` does not return code 0 — `math.log(0, 2)` raises
`ValueError: math domain error`. -/
theorem getTimeBaseNum_zero_raises_counterexample : getTimeBaseNum 0 ≠ .ok 0 := by
  rw [getTimeBaseNum_zero]
  intro h
  cases h

/-- C6 (amended): for every requested interval with
`0 < sampleTimeS < 1e-9`, `getTimeBaseNum` returns code 0 and raises no
error; at exactly 0 it instead raises `ValueError: math domain error`. -/
theorem getTimeBaseNum_subns_zero_code (s : ℚ) (h0 : 0 < s) (h : s < 1 / 10 ^ 9) :
    getTimeBaseNum s = .ok 0 := by
  have h8 : s < 8 / 10 ^ 9 := lt_trans h (by norm_num)
  have harg : (0 : ℚ) < s * 10 ^ 9 := by positivity
  rw [getTimeBaseNum, if_pos h8, if_neg (not_le.2 harg)]
  have hle1 : s * 10 ^ 9 ≤ 1 := by nlinarith
  have hlog : Int.log 2 (s * 10 ^ 9) ≤ 0 := by
    rw [Int.log_of_right_le_one _ hle1]
    simp
  rw [max_eq_right hlog]

/-- Witness for C6 (amended): half a nanosecond yields code 0. -/
theorem getTimeBaseNum_subns_zero_code_witness :
    getTimeBaseNum (1 / (2 * 10 ^ 9)) = .ok 0 :=
  getTimeBaseNum_subns_zero_code (1 / (2 * 10 ^ 9)) (by norm_num) (by norm_num)

/-- C7: `getTimeBaseNum` is monotonically non-decreasing in the requested
interval within each regime: whenever `s1 ≤ s2` both return codes and either
both inputs lie below `8e-9` or both lie at or above it, the code for `s1` is
at most the code for `s2`. -/
theorem getTimeBaseNum_monotone (s1 s2 : ℚ) (h : s1 ≤ s2) (c1 c2 : ℤ)
    (h1 : getTimeBaseNum s1 = .ok c1) (h2 : getTimeBaseNum s2 = .ok c2) :
    (s2 < 8 / 10 ^ 9 → c1 ≤ c2) ∧ (8 / 10 ^ 9 ≤ s1 → c1 ≤ c2) := by
  constructor
  · intro hfast
    obtain ⟨hp1, he1⟩ := fast_ok (lt_of_le_of_lt h hfast) h1
    obtain ⟨hp2, he2⟩ := fast_ok hfast h2
    subst he1 he2
    have hle : s1 * 10 ^ 9 ≤ s2 * 10 ^ 9 := mul_le_mul_of_nonneg_right h (by norm_num)
    exact max_le_max (Int.log_mono_right hp1 hle) le_rfl
  · intro hslow
    have hs2 : 8 / 10 ^ 9 ≤ s2 := le_trans hslow h
    rw [slow_eq s1 (not_lt.2 hslow)] at h1
    rw [slow_eq s2 (not_lt.2 hs2)] at h2
    injection h1 with h1'
    injection h2 with h2'
    subst h1' h2'
    apply Int.floor_le_floor
    have hm : min s1 maxSampleTime ≤ min s2 maxSampleTime := min_le_min h le_rfl
    nlinarith [hm]

/-- Witness for C7: 1 ns ≤ 4 ns, both in the fast regime, give codes 0 ≤ 2. -/
theorem getTimeBaseNum_monotone_witness :
    getTimeBaseNum (1 / 10 ^ 9) = .ok 0 ∧ getTimeBaseNum (4 / 10 ^ 9) = .ok 2 ∧
    (0 : ℤ) ≤ 2 :=
  ⟨getTimeBaseNum_one_ns, getTimeBaseNum_four_ns,
   (getTimeBaseNum_monotone (1 / 10 ^ 9) (4 / 10 ^ 9) (by norm_num) 0 2
      getTimeBaseNum_one_ns getTimeBaseNum_four_ns).1 (by norm_num)⟩

/-- C8: under exact arithmetic the code/interval pairs for the representative
inputs are: 1e-9 s → code 0 → 1 ns; 4e-9 s → code 2 → 4 ns; 8e-9 s → code 3
(slow-clock branch) → 8 ns; 1e-6 s → code 127 → 1e-6 s; 1.0 s →
code 125000002 → 1.0 s. -/
theorem roundTrip_representatives :
    (getTimeBaseNum (1 / 10 ^ 9) = .ok 0 ∧ getTimestepFromTimebase 0 = 1 / 10 ^ 9) ∧
    (getTimeBaseNum (4 / 10 ^ 9) = .ok 2 ∧ getTimestepFromTimebase 2 = 4 / 10 ^ 9) ∧
    (getTimeBaseNum (8 / 10 ^ 9) = .ok 3 ∧ getTimestepFromTimebase 3 = 8 / 10 ^ 9) ∧
    (getTimeBaseNum (1 / 10 ^ 6) = .ok 127 ∧ getTimestepFromTimebase 127 = 1 / 10 ^ 6) ∧
    (getTimeBaseNum 1 = .ok 125000002 ∧ getTimestepFromTimebase 125000002 = 1) :=
  ⟨⟨getTimeBaseNum_one_ns, getTimestepFromTimebase_zero⟩,
   ⟨getTimeBaseNum_four_ns, getTimestepFromTimebase_two⟩,
   ⟨getTimeBaseNum_eight_ns, getTimestepFromTimebase_three⟩,
   ⟨getTimeBaseNum_one_us, getTimestepFromTimebase_127⟩,
   ⟨getTimeBaseNum_one_s, getTimestepFromTimebase_125000002⟩⟩

/-- C9 (code bug evidence): when the driver reports a required size of 300 for
the initial 256-byte buffer, the retry goes through the entry point
`ps3000_get_unit_info` (src line 183) — a PS3000-series symbol — which differs
from the entry point `ps3000aGetUnitInfo` used for the initial call. -/
theorem getUnitInfo_retry_entry_mismatch :
    lowLevelGetUnitInfo ⟨fun _ => 0, fun _ => "PicoScope 3207B", fun _ => 300⟩ =
      ([(.ps3000aGetUnitInfo, 256), (.ps3000_get_unit_info, 301)],
        .ok "PicoScope 3207B") ∧
    UnitInfoEntry.ps3000_get_unit_info ≠ UnitInfoEntry.ps3000aGetUnitInfo := by
  exact ⟨rfl, by decide⟩

/-- C10: under exact arithmetic, for every timebase code up to `2^32 - 1`,
`getTimeBaseNum` is a left inverse of `getTimestepFromTimebase`:
converting the code to its interval and back reproduces the code. -/
theorem getTimeBaseNum_leftInverse (code : ℕ) (h : code ≤ 2 ^ 32 - 1) :
    getTimeBaseNum (getTimestepFromTimebase code) = .ok code := by
  rcases Nat.lt_or_ge code 3 with hc | hc
  · interval_cases code
    · rw [getTimestepFromTimebase, if_pos (by norm_num)]
      rw [getTimeBaseNum, if_pos (by norm_num), if_neg (by norm_num)]
      have h1 : (2 : ℚ) ^ (((0 : ℕ) : ℤ)) / 10 ^ 9 * 10 ^ 9 = 1 := by norm_num
      rw [h1, Int.log_one_right]
      norm_num
    · rw [getTimestepFromTimebase, if_pos (by norm_num)]
      rw [getTimeBaseNum, if_pos (by norm_num), if_neg (by norm_num)]
      have h1 : (2 : ℚ) ^ (((1 : ℕ) : ℤ)) / 10 ^ 9 * 10 ^ 9 = 2 := by norm_num
      rw [h1, intLog2_two]
      norm_num
    · rw [getTimestepFromTimebase, if_pos (by norm_num)]
      rw [getTimeBaseNum, if_pos (by norm_num), if_neg (by norm_num)]
      have h1 : (2 : ℚ) ^ (((2 : ℕ) : ℤ)) / 10 ^ 9 * 10 ^ 9 = 4 := by norm_num
      rw [h1, intLog2_four]
      norm_num
  · have hge : (3 : ℤ) ≤ (code : ℤ) := by exact_mod_cast hc
    have h3 : (3 : ℚ) ≤ ((code : ℤ) : ℚ) := by exact_mod_cast hc
    have hcast : (((code : ℤ)) : ℚ) ≤ 2 ^ 32 - 1 := by
      have h' : ((code : ℚ)) ≤ ((2 ^ 32 - 1 : ℕ) : ℚ) := by exact_mod_cast h
      push_cast at h' ⊢
      linarith
    rw [getTimestepFromTimebase, if_neg (not_lt.2 hge)]
    have hq8 : ¬ ((((code : ℤ) : ℚ) - 2) / 125000000 < 8 / 10 ^ 9) := by
      rw [not_lt, div_le_div_iff₀ (by norm_num) (by norm_num)]
      linarith
    rw [getTimeBaseNum, if_neg hq8]
    have hqmax : ¬ (maxSampleTime < (((code : ℤ) : ℚ) - 2) / 125000000) := by
      rw [maxSampleTime, not_lt, div_le_div_iff₀ (by norm_num) (by norm_num)]
      linarith
    show Except.ok ⌊(if maxSampleTime < (((code : ℤ) : ℚ) - 2) / 125000000 then maxSampleTime
        else (((code : ℤ) : ℚ) - 2) / 125000000) * 125000000 + 2⌋ = _
    rw [if_neg hqmax]
    have harith : ((((code : ℤ)) : ℚ) - 2) / 125000000 * 125000000 + 2 = ((code : ℤ) : ℚ) := by
      field_simp
    rw [harith, Int.floor_intCast]

/-- Witness for C10: the largest valid code `2^32 - 1` round-trips. -/
theorem getTimeBaseNum_leftInverse_witness :
    getTimeBaseNum (getTimestepFromTimebase ((2 ^ 32 - 1 : ℕ))) =
      .ok ((2 ^ 32 - 1 : ℕ)) :=
  getTimeBaseNum_leftInverse (2 ^ 32 - 1) le_rfl

end PS3000a
